import Mathlib

/-!
Verification of the alert-state derivation and styling engine of the
ua-alerts-map repository (`src/types/AlertTypes.js`), as a shallow embedding.

JavaScript numbers occurring in date arithmetic may be NaN (an unparsable
timestamp's `Date` value); we model such numbers as `Option Int` with `none`
standing for NaN, since every arithmetic operation on NaN yields NaN and every
comparison with NaN is false.  Strings, lists and booleans are modelled
directly; a JS `undefined`/`null` field is the `none` of an `Option`.
-/

namespace UaAlerts

/-- A JS number that may be NaN (`none` = NaN). -/
abbrev JSNum := Option Int

/-- Subtraction of possibly-NaN numbers (NaN propagates). -/
def nSub (a b : JSNum) : JSNum :=
  match a, b with
  | some x, some y => some (x - y)
  | _, _ => none

/-- Addition of possibly-NaN numbers (NaN propagates). -/
def nAdd (a b : JSNum) : JSNum :=
  match a, b with
  | some x, some y => some (x + y)
  | _, _ => none

/-- Multiplication of a possibly-NaN number by a constant (NaN propagates). -/
def nMulConst (a : JSNum) (k : Int) : JSNum :=
  a.map (fun v => v * k)

/-- `Math.floor(a / d)` for integer `a` (possibly NaN) and positive integer `d`:
floor division; NaN propagates. -/
def jsFloorDiv (a : JSNum) (d : Int) : JSNum :=
  a.map (fun v => Int.fdiv v d)

/-- JS remainder `a % d` (sign of the dividend, i.e. truncated remainder);
NaN propagates. -/
def jsRem (a : JSNum) (d : Int) : JSNum :=
  a.map (fun v => Int.tmod v d)

/-- JS comparison `a > k`: false when `a` is NaN. -/
def jsGtInt (a : JSNum) (k : Int) : Bool :=
  match a with
  | some v => decide (v > k)
  | none => false

/-- JS `x || d` for a string-valued field: the empty string is falsy. -/
def jsOrStr (x : Option String) (d : String) : String :=
  match x with
  | some s => if s = "" then d else s
  | none => d

/-- JS `x || null` for a string-valued field: the empty string becomes null. -/
def jsOrOptStr (x : Option String) : Option String :=
  match x with
  | some s => if s = "" then none else some s
  | none => none

/-- JS `x || d` for an integer-valued field: `0` is falsy. -/
def jsOrInt (x : Option Int) (d : Int) : Int :=
  match x with
  | some v => if v = 0 then d else v
  | none => d

-- The `AlertLevel` constant table of the source.
namespace AlertLevel

def NONE : String := "none"

def LOW : String := "low"

def MEDIUM : String := "medium"

def HIGH : String := "high"

def CRITICAL : String := "critical"

def AIR_RAID : String := "air_raid"

def TACTICAL_AVIATION : String := "tactical"

def BALLISTIC : String := "ballistic"

end AlertLevel

-- The `ThreatType` constant table of the source.
namespace ThreatType

def AIR_RAID : String := "air_raid"

def TACTICAL_AVIATION : String := "tactical_aviation"

def CRUISE_MISSILES : String := "cruise_missiles"

def BALLISTIC_MISSILES : String := "ballistic_missiles"

def DRONES : String := "drones"

def ARTILLERY : String := "artillery"

def CHEMICAL : String := "chemical"

def NUCLEAR : String := "nuclear"

def STREET_FIGHTING : String := "street_fighting"

end ThreatType

/-- Metadata attached to one threat type (the `ThreatMetadata` table rows). -/
structure ThreatMeta where
  icon : String
  label : String
  color : String
  priority : Int
  pattern : Option String
deriving DecidableEq

/-- The static `ThreatMetadata` table: an associative lookup from threat token
to metadata; unknown tokens have no entry (JS `undefined`). -/
def ThreatMetadata : String → Option ThreatMeta
  | "air_raid" => some ⟨"plane", "Повітряна тривога", "#dc143c", 10, none⟩
  | "tactical_aviation" =>
      some ⟨"fighter-jet", "Активність тактичної авіації", "#ff6b6b", 8, none⟩
  | "cruise_missiles" => some ⟨"rocket", "Крилаті ракети", "#ff4444", 9, none⟩
  | "ballistic_missiles" =>
      some ⟨"missile", "Балістичні ракети", "#cc0000", 10, none⟩
  | "drones" => some ⟨"drone", "Загроза застосування БпЛА", "#ff8866", 6, none⟩
  | "artillery" =>
      some ⟨"explosion", "Загроза артобстрілу", "#ff9999", 7, some "dotted"⟩
  | "chemical" => some ⟨"biohazard", "Хімічна загроза", "#9932cc", 9, none⟩
  | "nuclear" => some ⟨"radiation", "Радіаційна загроза", "#8b0000", 10, none⟩
  | "street_fighting" =>
      some ⟨"shield-alt", "Загроза вуличних боїв", "#cd5c5c", 5, some "striped"⟩
  | _ => none

/-- The stored duration object `{days, hours, minutes}`; components are JS
numbers and hence may be NaN when they were computed from an unparsable date. -/
structure Duration where
  days : JSNum
  hours : JSNum
  minutes : JSNum
deriving DecidableEq

/-- The default all-zero duration of the constructor. -/
def zeroDuration : Duration := ⟨some 0, some 0, some 0⟩

/-- The `AlertData` instance state: one region's alert record. -/
@[ext]
structure AlertData where
  regionId : String
  regionName : String
  regionNameEn : String
  alertLevel : String
  threatTypes : List String
  startTime : Option String
  endTime : Option String
  duration : Duration
  intensity : Int
  subRegions : List String
  isActive : Bool
  lastUpdated : String
deriving DecidableEq

/-- A raw constructor argument (`data`), and equally the plain object produced
by `toJSON`: every field optional, `none` standing for `undefined`/`null`. -/
structure RawAlert where
  regionId : Option String
  regionName : Option String
  regionNameEn : Option String
  alertLevel : Option String
  threatTypes : Option (List String)
  startTime : Option String
  endTime : Option String
  duration : Option Duration
  intensity : Option Int
  subRegions : Option (List String)
  isActive : Option Bool
  lastUpdated : Option String
deriving DecidableEq

/-- A raw payload all of whose fields are absent (`new AlertData({})`). -/
def emptyRaw : RawAlert :=
  ⟨none, none, none, none, none, none, none, none, none, none, none, none⟩

/-- The `AlertData` constructor: each field is read with the source's
`data.field || default` (resp. `!== undefined` for `isActive`) normalization;
`nowIso` is `new Date().toISOString()`, used only as the `lastUpdated`
default. -/
def mkAlertData (data : RawAlert) (nowIso : String) : AlertData :=
  { regionId := jsOrStr data.regionId ""
  , regionName := jsOrStr data.regionName ""
  , regionNameEn := jsOrStr data.regionNameEn ""
  , alertLevel := jsOrStr data.alertLevel AlertLevel.NONE
  , threatTypes := data.threatTypes.getD []
  , startTime := jsOrOptStr data.startTime
  , endTime := jsOrOptStr data.endTime
  , duration := data.duration.getD zeroDuration
  , intensity := jsOrInt data.intensity 0
  , subRegions := data.subRegions.getD []
  , isActive := data.isActive.getD false
  , lastUpdated := jsOrStr data.lastUpdated nowIso }

def msPerDay : Int := 1000 * 60 * 60 * 24

def msPerHour : Int := 1000 * 60 * 60

def msPerMinute : Int := 1000 * 60

/-- The end instant of `calculateDuration`:
`this.endTime ? new Date(this.endTime) : new Date()`. -/
def endValue (parse : String → Option Int) (nowMs : Int) (a : AlertData) : JSNum :=
  match jsOrOptStr a.endTime with
  | some e => parse e
  | none => some nowMs

/-- `AlertData.calculateDuration`.  `parse` is the host `Date` parser
(`none` = Invalid Date, i.e. NaN value) and `nowMs` the current clock value
`new Date()`; the source guards only on falsiness of the timestamp strings,
so a non-empty unparsable string reaches the arithmetic as NaN. -/
def calculateDuration (parse : String → Option Int) (nowMs : Int)
    (a : AlertData) : Duration :=
  match jsOrOptStr a.startTime with
  | none => zeroDuration
  | some s =>
    let start : JSNum := parse s
    let diff := nSub (endValue parse nowMs a) start
    ⟨jsFloorDiv diff msPerDay,
     jsFloorDiv (jsRem diff msPerDay) msPerHour,
     jsFloorDiv (jsRem diff msPerHour) msPerMinute⟩

/-- Base score one threat token contributes: `metadata.priority * 10` when the
token is in the table, otherwise nothing (the `if (metadata)` guard). -/
def threatScore (t : String) : Int :=
  match ThreatMetadata t with
  | some m => m.priority * 10
  | none => 0

/-- The elapsed hours `days * 24 + hours` read from the stored duration. -/
def durationHours (d : Duration) : JSNum :=
  nAdd (nMulConst d.days 24) d.hours

/-- The duration-based bonus of `calculateIntensity`: thresholds on
`days * 24 + hours`; a NaN duration component makes every comparison false,
so the bonus is then 0. -/
def durationBonus (d : Duration) : Int :=
  if jsGtInt (durationHours d) 72 then 20
  else if jsGtInt (durationHours d) 24 then 10
  else if jsGtInt (durationHours d) 6 then 5
  else 0

/-- `AlertData.calculateIntensity`: forEach-accumulated base score plus
duration bonus, capped at 100 by `Math.min`. -/
def calculateIntensity (a : AlertData) : Int :=
  let base := a.threatTypes.foldl (fun acc t => acc + threatScore t) 0
  min (base + durationBonus a.duration) 100

/-- `currentMeta?.priority || 0` of `getPrimaryThreat`. -/
def threatPriority (t : String) : Int :=
  match ThreatMetadata t with
  | some m => jsOrInt (some m.priority) 0
  | none => 0

/-- `AlertData.getPrimaryThreat`: `reduce` over the whole threat list with the
first element as initial accumulator; `null` (here `none`) when empty. -/
def getPrimaryThreat (a : AlertData) : Option String :=
  match a.threatTypes with
  | [] => none
  | t0 :: _ =>
    some (a.threatTypes.foldl
      (fun primary current =>
        if threatPriority current > threatPriority primary then current
        else primary) t0)

/-- The intensity-based fallback colour bands of `getColor`. -/
def intensityColor (intensity : Int) : String :=
  if intensity > 80 then "#8b0000"
  else if intensity > 60 then "#dc143c"
  else if intensity > 40 then "#ff6b6b"
  else if intensity > 20 then "#ffcccb"
  else "#ffe0e0"

/-- `AlertData.getColor`: white when the alert level is the NONE token,
otherwise the primary threat's metadata colour when `primaryThreat` is truthy
and has a table entry, otherwise the intensity bands. -/
def getColor (a : AlertData) : String :=
  if a.alertLevel = AlertLevel.NONE then "#ffffff"
  else
    match getPrimaryThreat a with
    | some t =>
      if t ≠ "" then
        match ThreatMetadata t with
        | some m => m.color
        | none => intensityColor a.intensity
      else intensityColor a.intensity
    | none => intensityColor a.intensity

/-- `AlertData.isCritical`. -/
def AlertData.isCritical (a : AlertData) : Bool :=
  a.alertLevel == AlertLevel.CRITICAL ||
  a.threatTypes.contains ThreatType.BALLISTIC_MISSILES ||
  a.threatTypes.contains ThreatType.NUCLEAR

/-- `AlertData.toJSON`: the plain object carrying exactly the record's twelve
fields (a present string field serializes as itself, a `null` one as `null`). -/
def toJSON (a : AlertData) : RawAlert :=
  { regionId := some a.regionId
  , regionName := some a.regionName
  , regionNameEn := some a.regionNameEn
  , alertLevel := some a.alertLevel
  , threatTypes := some a.threatTypes
  , startTime := a.startTime
  , endTime := a.endTime
  , duration := some a.duration
  , intensity := some a.intensity
  , subRegions := some a.subRegions
  , isActive := some a.isActive
  , lastUpdated := some a.lastUpdated }

/-- `AlertData.fromJSON`: `new AlertData(json)`. -/
def fromJSON (json : RawAlert) (nowIso : String) : AlertData :=
  mkAlertData json nowIso

/-- The serialization round trip `fromJSON(toJSON(a))`. -/
def roundTrip (a : AlertData) (nowIso : String) : AlertData :=
  fromJSON (toJSON a) nowIso

/-- One overwriting step of the merge loop on an optional-valued field:
a present update value replaces the current one, otherwise the current value
stays. -/
def jsUpdOpt (u m : Option String) : Option String :=
  match u with
  | some s => some s
  | none => m

/-- The field-overwriting loop of `mergeAlertData`: every update field that is
neither `undefined` nor `null` (`none` models both) overwrites the merged
record's field.  A present-but-falsy value (such as an empty string) does
overwrite. -/
def applyUpdate (m : AlertData) (u : RawAlert) : AlertData :=
  { regionId := u.regionId.getD m.regionId
  , regionName := u.regionName.getD m.regionName
  , regionNameEn := u.regionNameEn.getD m.regionNameEn
  , alertLevel := u.alertLevel.getD m.alertLevel
  , threatTypes := u.threatTypes.getD m.threatTypes
  , startTime := jsUpdOpt u.startTime m.startTime
  , endTime := jsUpdOpt u.endTime m.endTime
  , duration := u.duration.getD m.duration
  , intensity := u.intensity.getD m.intensity
  , subRegions := u.subRegions.getD m.subRegions
  , isActive := u.isActive.getD m.isActive
  , lastUpdated := u.lastUpdated.getD m.lastUpdated }

/-- `AlertUtils.mergeAlertData`: copy the existing record through the
constructor, overwrite the non-null update fields, then recompute first the
duration and then (from the new duration) the intensity. -/
def mergeAlertData (parse : String → Option Int) (nowMs : Int) (nowIso : String)
    (existing : AlertData) (update : RawAlert) : AlertData :=
  let merged := mkAlertData (toJSON existing) nowIso
  let merged := applyUpdate merged update
  let merged := { merged with duration := calculateDuration parse nowMs merged }
  { merged with intensity := calculateIntensity merged }

/-- The `AlertHistoryEntry` duration object has plain numeric components
(they come from a stored breakdown, never from NaN date arithmetic). -/
structure IntDuration where
  days : Int
  hours : Int
  minutes : Int
deriving DecidableEq

/-- The record interface `AlertUtils.sortByAlertPriority` actually consumes.
JavaScript ties the comparator to no class: it reads `isCritical()` (defined
on `AlertData` from the alert level and the threat list), the `intensity`
field, and `getTotalMinutes()` (defined on `AlertHistoryEntry` from the stored
duration), so the sortable record carries exactly those constituents. -/
structure SortRecord where
  alertLevel : String
  threatTypes : List String
  intensity : Int
  duration : Option IntDuration
deriving DecidableEq

/-- `isCritical` on a sortable record (the `AlertData.isCritical` body). -/
def SortRecord.isCritical (r : SortRecord) : Bool :=
  r.alertLevel == AlertLevel.CRITICAL ||
  r.threatTypes.contains ThreatType.BALLISTIC_MISSILES ||
  r.threatTypes.contains ThreatType.NUCLEAR

/-- `AlertHistoryEntry.getTotalMinutes`: 0 for a null duration, otherwise
`days * 24 * 60 + hours * 60 + minutes`. -/
def SortRecord.getTotalMinutes (r : SortRecord) : Int :=
  match r.duration with
  | none => 0
  | some d => d.days * 24 * 60 + d.hours * 60 + d.minutes

/-- The comparator passed to `regions.sort` in `sortByAlertPriority`:
critical first, then higher intensity, then longer total minutes. -/
def alertCmp (a b : SortRecord) : Int :=
  if a.isCritical && !b.isCritical then -1
  else if !a.isCritical && b.isCritical then 1
  else if a.intensity ≠ b.intensity then b.intensity - a.intensity
  else b.getTotalMinutes - a.getTotalMinutes

/-- `AlertUtils.sortByAlertPriority`: `Array.prototype.sort` with `alertCmp`.
Since ECMAScript 2019 `sort` is specified to be stable, and `alertCmp` is a
consistent comparator, the call is extensionally the stable sort by the
comparator, embedded as `List.mergeSort` with `alertCmp a b ≤ 0`. -/
def sortByAlertPriority (regions : List SortRecord) : List SortRecord :=
  regions.mergeSort (fun a b => decide (alertCmp a b ≤ 0))

/-- `AlertUtils.getAlertLevelFromIntensity`. -/
def getAlertLevelFromIntensity (intensity : Int) : String :=
  if intensity = 0 then AlertLevel.NONE
  else if intensity < 20 then AlertLevel.LOW
  else if intensity < 40 then AlertLevel.MEDIUM
  else if intensity < 70 then AlertLevel.HIGH
  else AlertLevel.CRITICAL

/-- The ordering the specification claims for `rankByPriority`: critical
before non-critical, then higher intensity, then longer total elapsed
minutes; ties allowed. -/
def claimOrder (a b : SortRecord) : Prop :=
  (a.isCritical = true ∧ b.isCritical = false) ∨
  (a.isCritical = b.isCritical ∧ b.intensity < a.intensity) ∨
  (a.isCritical = b.isCritical ∧ a.intensity = b.intensity ∧
    b.getTotalMinutes ≤ a.getTotalMinutes)

/-- The specification's sum-over-the-threat-set intensity base: each member
contributes its metadata priority times ten, unknown tokens contribute 0. -/
def specBaseIntensity (threats : List String) : Int :=
  (threats.map threatScore).sum

/-- A concrete stand-in for the host `Date` parser, defined on two sample
ISO timestamps one hour apart and undefined (Invalid Date) on everything
else.  Used only to instantiate theorems whose `parse` is universally
quantified. -/
def sampleParse : String → Option Int := fun s =>
  if s = "2024-01-01T00:00:00Z" then some 0
  else if s = "2024-01-01T01:00:00Z" then some 3600000
  else none

/-- A payload carrying one active threat and a start time but no end time
and no explicit `isActive`. -/
def rawActiveThreat : RawAlert :=
  ⟨some "kyiv", none, none, none, some [ThreatType.AIR_RAID],
    some "2024-01-01T00:00:00Z", none, none, none, none, none, none⟩

/-- The record the constructor builds from `rawActiveThreat`. -/
def recActiveThreat : AlertData :=
  mkAlertData rawActiveThreat "2024-01-01T02:00:00.000Z"

/-- A record whose start time is one hour after its end time. -/
def recEndBeforeStart : AlertData :=
  mkAlertData
    ⟨none, none, none, none, none, some "2024-01-01T01:00:00Z",
      some "2024-01-01T00:00:00Z", none, none, none, none, none⟩
    "2024-01-01T02:00:00.000Z"

/-- A record whose end time is one hour after its start time. -/
def recOneHour : AlertData :=
  mkAlertData
    ⟨none, none, none, none, none, some "2024-01-01T00:00:00Z",
      some "2024-01-01T01:00:00Z", none, none, none, none, none⟩
    "2024-01-01T02:00:00.000Z"

/-- An inactive record (explicit `isActive: false`, end time set, no threats)
whose alert level token is `high`. -/
def recInactiveHigh : AlertData :=
  mkAlertData
    ⟨none, none, none, some AlertLevel.HIGH, none, none,
      some "2024-01-01T00:00:00Z", none, none, none, some false, none⟩
    "2024-01-01T02:00:00.000Z"

/-- An active record with one threat whose alert level token is `high`. -/
def recActiveHigh : AlertData :=
  mkAlertData
    ⟨none, none, none, some AlertLevel.HIGH, some [ThreatType.AIR_RAID],
      some "2024-01-01T00:00:00Z", none, none, none, none, some true, none⟩
    "2024-01-01T02:00:00.000Z"

/-- An existing record for the merge theorems, with region id `kyiv`. -/
def recKyiv : AlertData :=
  mkAlertData
    ⟨some "kyiv", none, none, none, none, none, none, none, none, none,
      none, none⟩
    "2024-01-01T02:00:00.000Z"

/-- An update that carries a (different) region id. -/
def updLviv : RawAlert :=
  ⟨some "lviv", none, none, none, none, none, none, none, none, none,
    none, none⟩

/-- An update that carries no region id. -/
def updNoRegion : RawAlert :=
  ⟨none, none, none, some AlertLevel.HIGH, some [ThreatType.DRONES],
    some "2024-01-01T00:00:00Z", none, none, some 7, none, some true, none⟩

/-- A record whose start time is a non-empty unparsable string. -/
def recBadDate : AlertData :=
  mkAlertData
    ⟨none, none, none, none, none, some "NOT_A_DATE", none, none, none,
      none, none, none⟩
    "2024-01-01T02:00:00.000Z"

/-- A record whose serialized snapshot carries a stale intensity (55) that
recomputation (no threats, zero duration) would not reproduce. -/
def recStale : AlertData :=
  mkAlertData
    ⟨none, none, none, none, none, none, none, none, some 55, none, none,
      none⟩
    "2024-01-01T02:00:00.000Z"

/-- Two records with the same duration whose threat lists are permutations of
one another. -/
def recPermA : AlertData :=
  { recActiveThreat with
      threatTypes := [ThreatType.DRONES, ThreatType.AIR_RAID] }

/-- The permuted twin of `recPermA`. -/
def recPermB : AlertData :=
  { recActiveThreat with
      threatTypes := [ThreatType.AIR_RAID, ThreatType.DRONES] }

/-- Scenario 4's record A: critical, intensity 60. -/
def sortRecA : SortRecord := ⟨AlertLevel.CRITICAL, [], 60, none⟩

/-- Scenario 4's record B: non-critical, intensity 95. -/
def sortRecB : SortRecord := ⟨AlertLevel.NONE, [], 95, none⟩

end UaAlerts

namespace UaAlerts

theorem jsOrStr_some_self (s : String) : jsOrStr (some s) "" = s := by
  unfold jsOrStr
  split <;> simp_all

theorem jsOrStr_of_ne (s d : String) (h : s ≠ "") : jsOrStr (some s) d = s := by
  simp [jsOrStr, h]

theorem jsOrStr_idem (x d : String) :
    jsOrStr (some (jsOrStr (some x) d)) d = jsOrStr (some x) d := by
  simp only [jsOrStr]
  split_ifs <;> simp_all

theorem jsOrOptStr_idem (x : Option String) :
    jsOrOptStr (jsOrOptStr x) = jsOrOptStr x := by
  unfold jsOrOptStr
  cases x with
  | none => rfl
  | some s => split <;> simp_all

theorem jsOrOptStr_of_ne (x : Option String) (h : x ≠ some "") :
    jsOrOptStr x = x := by
  unfold jsOrOptStr
  cases x with
  | none => rfl
  | some s => simp_all

theorem jsOrInt_some_zero (v : Int) : jsOrInt (some v) 0 = v := by
  unfold jsOrInt
  split <;> simp_all

theorem nSub_none_right (x : JSNum) : nSub x none = none := by
  cases x <;> rfl

theorem nSub_none_left (y : JSNum) : nSub none y = none := by
  cases y <;> rfl

/-- Claim C10: `getAlertLevelFromIntensity` cuts the 0-100 intensity scale at
0, 20, 40 and 70: `none` exactly at 0, `low` on (0,20), `medium` on [20,40),
`high` on [40,70) and `critical` from 70 up. -/
theorem getAlertLevelFromIntensity_bands (i : Int) (h : 0 ≤ i) :
    (getAlertLevelFromIntensity i = AlertLevel.NONE ↔ i = 0) ∧
    (getAlertLevelFromIntensity i = AlertLevel.LOW ↔ 0 < i ∧ i < 20) ∧
    (getAlertLevelFromIntensity i = AlertLevel.MEDIUM ↔ 20 ≤ i ∧ i < 40) ∧
    (getAlertLevelFromIntensity i = AlertLevel.HIGH ↔ 40 ≤ i ∧ i < 70) ∧
    (getAlertLevelFromIntensity i = AlertLevel.CRITICAL ↔ 70 ≤ i) := by
  unfold getAlertLevelFromIntensity AlertLevel.NONE AlertLevel.LOW
    AlertLevel.MEDIUM AlertLevel.HIGH AlertLevel.CRITICAL
  split_ifs <;> refine ⟨?_, ?_, ?_, ?_, ?_⟩ <;> simp <;> omega

/-- Witness for the C10 theorem at intensity 25. -/
theorem getAlertLevelFromIntensity_bands_witness :
    getAlertLevelFromIntensity 25 = AlertLevel.MEDIUM :=
  (getAlertLevelFromIntensity_bands 25 (by decide)).2.2.1.mpr (by decide)

/-- Claim C3 counterexample: a record built by the constructor from a payload
with one threat, a start time, no end time and no explicit active flag has
`isActive = false` although `endTime` is unset and the threat set is
non-empty — the active flag is not the claimed conjunction. -/
theorem isActive_invariant_cex :
    recActiveThreat.endTime = none ∧ recActiveThreat.threatTypes ≠ [] ∧
    recActiveThreat.isActive = false := by decide

/-- Claim C3 amended: the active flag is copied verbatim from the payload
(defaulting to false when absent); merge overwrites it only when the update
supplies it; it is never derived from `endTime` and `threatTypes`. -/
theorem isActive_payload (data : RawAlert) (nowIso : String)
    (parse : String → Option Int) (nowMs : Int) (nowIso2 : String)
    (e : AlertData) (u : RawAlert) :
    (mkAlertData data nowIso).isActive = data.isActive.getD false ∧
    (mergeAlertData parse nowMs nowIso2 e u).isActive =
      u.isActive.getD e.isActive := by
  constructor
  · rfl
  · simp [mergeAlertData, applyUpdate, mkAlertData, toJSON]

/-- Claim C5 counterexample: an inactive record (explicit false flag, end
time set, no threats) whose alert level token is `high` gets the lightest
intensity band colour, not the neutral white — `getColor` keys on the alert
level token, not on activity. -/
theorem getColor_cex :
    recInactiveHigh.isActive = false ∧ recInactiveHigh.threatTypes = [] ∧
    getColor recInactiveHigh = "#ffe0e0" ∧ "#ffe0e0" ≠ "#ffffff" := by decide

/-- Claim C5 amended: `getColor` returns white when the alert level token is
`none`; otherwise the primary threat's metadata colour when that threat is
resolvable in the metadata table; otherwise the intensity bands. -/
theorem getColor_spec (a : AlertData) :
    (a.alertLevel = AlertLevel.NONE → getColor a = "#ffffff") ∧
    (a.alertLevel ≠ AlertLevel.NONE →
      ∀ t m, getPrimaryThreat a = some t → ThreatMetadata t = some m →
        getColor a = m.color) ∧
    (a.alertLevel ≠ AlertLevel.NONE →
      (getPrimaryThreat a).bind ThreatMetadata = none →
        getColor a = intensityColor a.intensity) := by
  refine ⟨?_, ?_, ?_⟩
  · intro h
    simp [getColor, h]
  · intro h t m ht hm
    have ht' : t ≠ "" := by
      intro he
      rw [he] at hm
      simp [ThreatMetadata] at hm
    simp [getColor, h, ht, ht', hm]
  · intro h hb
    unfold getColor
    rw [if_neg h]
    cases hp : getPrimaryThreat a with
    | none => rfl
    | some t =>
      rw [hp] at hb
      simp only [Option.some_bind] at hb
      by_cases ht : t = ""
      · simp [ht]
      · simp [ht, hb]

/-- Witness for the C5 amended theorem: an active `high`-level record with an
air-raid threat gets the air-raid metadata colour. -/
theorem getColor_spec_witness :
    getColor recActiveHigh = "#dc143c" :=
  (getColor_spec recActiveHigh).2.1 (by decide) "air_raid"
    ⟨"plane", "Повітряна тривога", "#dc143c", 10, none⟩ (by decide) (by decide)

/-- Claim C6 counterexample: merging an update that carries a region id
overwrites the existing record's region id. -/
theorem merge_regionId_cex :
    recKyiv.regionId = "kyiv" ∧
    (mergeAlertData sampleParse 0 "2024-01-01T02:00:00.000Z" recKyiv
        updLviv).regionId = "lviv" := by decide

/-- Claim C6 amended: merge preserves the region id whenever the update does
not supply one (`undefined`/`null` region id). -/
theorem merge_regionId (parse : String → Option Int) (nowMs : Int)
    (nowIso : String) (e : AlertData) (u : RawAlert) (h : u.regionId = none) :
    (mergeAlertData parse nowMs nowIso e u).regionId = e.regionId := by
  simp [mergeAlertData, applyUpdate, mkAlertData, toJSON, h, jsOrStr_some_self]

/-- Witness for the C6 amended theorem. -/
theorem merge_regionId_witness :
    (mergeAlertData sampleParse 0 "2024-01-01T02:00:00.000Z" recKyiv
        updNoRegion).regionId = recKyiv.regionId :=
  merge_regionId sampleParse 0 "2024-01-01T02:00:00.000Z" recKyiv updNoRegion
    rfl

/-- Claim C7 counterexample: a record whose start time is a non-empty
unparsable string does not get the all-zero duration; every component of the
computed duration is NaN. -/
theorem unparsable_timestamp_cex :
    recBadDate.startTime = some "NOT_A_DATE" ∧
    sampleParse "NOT_A_DATE" = none ∧
    calculateDuration sampleParse 123456 recBadDate =
      ⟨none, none, none⟩ ∧
    (⟨none, none, none⟩ : Duration) ≠ zeroDuration := by decide

/-- Claim C7 amended: an unparsable (truthy) start or end timestamp never
raises past the boundary — the computation is total — but it yields the
all-NaN duration, not the all-zero one. -/
theorem unparsable_timestamp (parse : String → Option Int) (nowMs : Int)
    (a : AlertData) :
    (∀ s, jsOrOptStr a.startTime = some s → parse s = none →
      calculateDuration parse nowMs a = ⟨none, none, none⟩) ∧
    (∀ s e, jsOrOptStr a.startTime = some s → jsOrOptStr a.endTime = some e →
      parse e = none →
      calculateDuration parse nowMs a = ⟨none, none, none⟩) := by
  constructor
  · intro s hs hp
    simp [calculateDuration, hs, hp, nSub_none_right, jsFloorDiv, jsRem]
  · intro s e hs he hp
    simp [calculateDuration, hs, endValue, he, hp, nSub_none_left,
      jsFloorDiv, jsRem]

/-- Witness for the C7 amended theorem. -/
theorem unparsable_timestamp_witness :
    calculateDuration sampleParse 123456 recBadDate = ⟨none, none, none⟩ :=
  (unparsable_timestamp sampleParse 123456 recBadDate).1 "NOT_A_DATE"
    (by decide) (by decide)

/-- Claim C8 counterexample: a record deserialized from a snapshot with a
stale intensity (55, while its threat set is empty) keeps 55; the derived
field is trusted from the snapshot, not recomputed on load (recomputation
would give 0). -/
theorem roundTrip_cex :
    recStale.intensity = 55 ∧ recStale.threatTypes = [] ∧
    (roundTrip recStale "2024-01-02T00:00:00.000Z").intensity = 55 ∧
    calculateIntensity (roundTrip recStale "2024-01-02T00:00:00.000Z") = 0 := by
  decide

/-- Claim C8 amended: the serialization round trip reproduces every field of
a constructor-normalized record verbatim — the derived `duration` and
`intensity` included, taken from the snapshot rather than recomputed. -/
theorem roundTrip_preserves (a : AlertData) (nowIso : String)
    (h1 : a.alertLevel ≠ "") (h2 : a.startTime ≠ some "")
    (h3 : a.endTime ≠ some "") (h4 : a.lastUpdated ≠ "") :
    roundTrip a nowIso = a := by
  unfold roundTrip fromJSON mkAlertData toJSON
  simp [jsOrStr_of_ne _ _ h1, jsOrStr_of_ne _ _ h4, jsOrOptStr_of_ne _ h2,
    jsOrOptStr_of_ne _ h3, jsOrStr_some_self, jsOrInt_some_zero]

/-- Witness for the C8 amended theorem. -/
theorem roundTrip_preserves_witness :
    roundTrip recActiveThreat "2024-01-05T00:00:00.000Z" = recActiveThreat :=
  roundTrip_preserves recActiveThreat "2024-01-05T00:00:00.000Z" (by decide)
    (by decide) (by decide) (by decide)

end UaAlerts

namespace UaAlerts

/-- Claim C4 counterexample: when the end time precedes the start time by one
hour, the computed duration is `{days: -1, hours: -1, minutes: 0}` — the code
floors the raw (negative) difference instead of clamping it at zero, so the
components can be negative. -/
theorem computeDuration_cex :
    recEndBeforeStart.startTime = some "2024-01-01T01:00:00Z" ∧
    recEndBeforeStart.endTime = some "2024-01-01T00:00:00Z" ∧
    sampleParse "2024-01-01T01:00:00Z" = some 3600000 ∧
    sampleParse "2024-01-01T00:00:00Z" = some 0 ∧
    calculateDuration sampleParse 0 recEndBeforeStart =
      ⟨some (-1), some (-1), some 0⟩ := by decide

/-- Claim C4 amended: with no (truthy) start time the duration is all-zero;
when both instants parse and the end does not precede the start, the result
is the non-negative whole-unit `{days, hours, minutes}` breakdown of
`end - start` (minutes truncated toward zero); when the end precedes the
start the components are instead negative floor quotients (no clamping). -/
theorem computeDuration_breakdown (parse : String → Option Int)
    (nowMs : Int) (a : AlertData) :
    (jsOrOptStr a.startTime = none →
      calculateDuration parse nowMs a = zeroDuration) ∧
    (∀ s sv ev, jsOrOptStr a.startTime = some s → parse s = some sv →
      endValue parse nowMs a = some ev → sv ≤ ev →
      ∃ dd hh mm : Int,
        calculateDuration parse nowMs a = ⟨some dd, some hh, some mm⟩ ∧
        0 ≤ dd ∧ 0 ≤ hh ∧ hh < 24 ∧ 0 ≤ mm ∧ mm < 60 ∧
        dd * 1440 + hh * 60 + mm = (ev - sv) / 60000) := by
  constructor
  · intro h
    simp [calculateDuration, h]
  · intro s sv ev hs hps he hle
    have hd : calculateDuration parse nowMs a =
        ⟨some (Int.fdiv (ev - sv) msPerDay),
         some (Int.fdiv (Int.tmod (ev - sv) msPerDay) msPerHour),
         some (Int.fdiv (Int.tmod (ev - sv) msPerHour) msPerMinute)⟩ := by
      simp [calculateDuration, hs, hps, he, nSub, jsFloorDiv, jsRem]
    have hn : 0 ≤ ev - sv := by omega
    have e1 : Int.fdiv (ev - sv) msPerDay = (ev - sv) / msPerDay :=
      Int.fdiv_eq_ediv _ (by decide)
    have e2 : Int.tmod (ev - sv) msPerDay = (ev - sv) % msPerDay :=
      Int.tmod_eq_emod hn (by decide)
    have h2 : 0 ≤ (ev - sv) % msPerDay := Int.emod_nonneg _ (by decide)
    have e3 : Int.fdiv ((ev - sv) % msPerDay) msPerHour =
        ((ev - sv) % msPerDay) / msPerHour :=
      Int.fdiv_eq_ediv _ (by decide)
    have e4 : Int.tmod (ev - sv) msPerHour = (ev - sv) % msPerHour :=
      Int.tmod_eq_emod hn (by decide)
    have e5 : Int.fdiv ((ev - sv) % msPerHour) msPerMinute =
        ((ev - sv) % msPerHour) / msPerMinute :=
      Int.fdiv_eq_ediv _ (by decide)
    refine ⟨(ev - sv) / msPerDay, ((ev - sv) % msPerDay) / msPerHour,
      ((ev - sv) % msPerHour) / msPerMinute,
      by rw [hd, e1, e2, e3, e4, e5], ?_, ?_, ?_, ?_, ?_, ?_⟩ <;>
      simp only [msPerDay, msPerHour, msPerMinute] <;> omega

/-- Witness for the C4 amended theorem on a record lasting one hour. -/
theorem computeDuration_breakdown_witness :
    ∃ dd hh mm : Int,
      calculateDuration sampleParse 7200000 recOneHour =
        ⟨some dd, some hh, some mm⟩ ∧
      0 ≤ dd ∧ 0 ≤ hh ∧ hh < 24 ∧ 0 ≤ mm ∧ mm < 60 ∧
      dd * 1440 + hh * 60 + mm = (3600000 - 0) / 60000 :=
  (computeDuration_breakdown sampleParse 7200000 recOneHour).2
    "2024-01-01T00:00:00Z" 0 3600000 (by decide) (by decide) (by decide)
    (by decide)

theorem foldl_threatScore (l : List String) (acc : Int) :
    l.foldl (fun acc t => acc + threatScore t) acc =
      acc + specBaseIntensity l := by
  induction l generalizing acc with
  | nil => simp [specBaseIntensity]
  | cons t ts ih =>
    simp only [List.foldl_cons, ih, specBaseIntensity, List.map_cons,
      List.sum_cons]
    ring

theorem ThreatMetadata_priority_pos (t : String) (m : ThreatMeta)
    (h : ThreatMetadata t = some m) : 0 < m.priority := by
  unfold ThreatMetadata at h
  split at h <;> first | (cases h; decide) | simp_all

theorem threatScore_nonneg (t : String) : 0 ≤ threatScore t := by
  unfold threatScore
  cases h : ThreatMetadata t with
  | none => simp
  | some m =>
    have := ThreatMetadata_priority_pos t m h
    dsimp only
    omega

theorem specBaseIntensity_nonneg (l : List String) :
    0 ≤ specBaseIntensity l := by
  unfold specBaseIntensity
  apply List.sum_nonneg
  intro x hx
  simp only [List.mem_map] at hx
  obtain ⟨t, -, rfl⟩ := hx
  exact threatScore_nonneg t

theorem durationBonus_nonneg (d : Duration) : 0 ≤ durationBonus d := by
  unfold durationBonus
  split_ifs <;> decide

/-- Claim C2: `calculateIntensity` is the sum of `priority * 10` over the
threat list (unknown tokens contributing 0) plus the duration bonus, capped
at 100; it lies in [0, 100] and is invariant under permutation of the threat
set. -/
theorem computeIntensity_spec (a : AlertData) :
    calculateIntensity a =
      min (specBaseIntensity a.threatTypes + durationBonus a.duration) 100 ∧
    0 ≤ calculateIntensity a ∧ calculateIntensity a ≤ 100 ∧
    (∀ t, ThreatMetadata t = none → threatScore t = 0) ∧
    (∀ b : AlertData, a.threatTypes.Perm b.threatTypes →
      a.duration = b.duration → calculateIntensity a = calculateIntensity b) := by
  have heq : ∀ c : AlertData, calculateIntensity c =
      min (specBaseIntensity c.threatTypes + durationBonus c.duration) 100 := by
    intro c
    unfold calculateIntensity
    rw [foldl_threatScore]
    ring_nf
  refine ⟨heq a, ?_, ?_, ?_, ?_⟩
  · rw [heq a]
    have h1 := specBaseIntensity_nonneg a.threatTypes
    have h2 := durationBonus_nonneg a.duration
    omega
  · rw [heq a]
    omega
  · intro t h
    simp [threatScore, h]
  · intro b hp hd
    have hs : specBaseIntensity a.threatTypes =
        specBaseIntensity b.threatTypes := by
      unfold specBaseIntensity
      exact (hp.map threatScore).sum_eq
    rw [heq a, heq b, hd, hs]

/-- Witness for the C2 theorem: permuting the two threats of a record leaves
its computed intensity unchanged. -/
theorem computeIntensity_spec_witness :
    calculateIntensity recPermA = calculateIntensity recPermB :=
  (computeIntensity_spec recPermA).2.2.2.2 recPermB (by decide) (by decide)

end UaAlerts

namespace UaAlerts

theorem alertCmp_le_total (a b : SortRecord) :
    alertCmp a b ≤ 0 ∨ alertCmp b a ≤ 0 := by
  unfold alertCmp
  cases ha : a.isCritical <;> cases hb : b.isCritical <;> simp [ha, hb] <;>
    split_ifs <;> omega

theorem alertCmp_le_trans (a b c : SortRecord) (h1 : alertCmp a b ≤ 0)
    (h2 : alertCmp b c ≤ 0) : alertCmp a c ≤ 0 := by
  unfold alertCmp at *
  cases ha : a.isCritical <;> cases hb : b.isCritical <;>
    cases hc : c.isCritical <;> simp [ha, hb, hc] at * <;>
    split_ifs at * <;> omega

theorem alertCmp_le_iff (a b : SortRecord) :
    alertCmp a b ≤ 0 ↔ claimOrder a b := by
  unfold alertCmp claimOrder
  cases ha : a.isCritical <;> cases hb : b.isCritical <;> simp [ha, hb] <;>
    split_ifs <;> omega

theorem alertCmp_trans_bool (x y z : SortRecord)
    (h1 : (fun a b => decide (alertCmp a b ≤ 0)) x y)
    (h2 : (fun a b => decide (alertCmp a b ≤ 0)) y z) :
    (fun a b => decide (alertCmp a b ≤ 0)) x z := by
  simp only [decide_eq_true_eq] at h1 h2 ⊢
  exact alertCmp_le_trans x y z h1 h2

theorem alertCmp_total_bool (x y : SortRecord) :
    ((fun a b => decide (alertCmp a b ≤ 0)) x y ||
      (fun a b => decide (alertCmp a b ≤ 0)) y x) = true := by
  rcases alertCmp_le_total x y with h | h <;> simp [h]

/-- Claim C1: `rankByPriority` is the stable sort by the comparator: its
output is a permutation of the input, consecutive records respect
criticality-then-intensity-then-total-minutes, records tying on all three
keys keep their input order, and scenario 4 (critical A with intensity 60
before non-critical B with intensity 95) holds. -/
theorem rankByPriority_spec (l : List SortRecord) :
    (sortByAlertPriority l).Perm l ∧
    (sortByAlertPriority l).Pairwise claimOrder ∧
    (∀ a b, a.isCritical = b.isCritical → a.intensity = b.intensity →
      a.getTotalMinutes = b.getTotalMinutes →
      List.Sublist [a, b] l → List.Sublist [a, b] (sortByAlertPriority l)) ∧
    sortByAlertPriority [sortRecB, sortRecA] = [sortRecA, sortRecB] := by
  refine ⟨?_, ?_, ?_, ?_⟩
  · exact List.mergeSort_perm l _
  · have hs := List.sorted_mergeSort alertCmp_trans_bool alertCmp_total_bool l
    exact hs.imp (fun hab => (alertCmp_le_iff _ _).mp (by simpa using hab))
  · intro a b h1 h2 h3 hsub
    have hab : alertCmp a b ≤ 0 := by
      unfold alertCmp
      rw [h1, h2, h3]
      cases b.isCritical <;> simp
    exact List.pair_sublist_mergeSort alertCmp_trans_bool alertCmp_total_bool
      (decide_eq_true hab) hsub
  · simp [sortByAlertPriority, List.mergeSort, List.splitInTwo, List.splitAt,
      List.splitAt.go, List.merge, alertCmp, sortRecA, sortRecB,
      SortRecord.isCritical, SortRecord.getTotalMinutes, AlertLevel.CRITICAL,
      AlertLevel.NONE, ThreatType.BALLISTIC_MISSILES, ThreatType.NUCLEAR]

/-- Witness for the C1 theorem: two records tying on criticality, intensity
and minutes keep their input order through the sort. -/
theorem rankByPriority_spec_witness :
    List.Sublist [sortRecA, sortRecA] (sortByAlertPriority [sortRecA, sortRecA]) :=
  (rankByPriority_spec [sortRecA, sortRecA]).2.2.1 sortRecA sortRecA rfl rfl
    rfl (by decide)

end UaAlerts

namespace UaAlerts

theorem calculateDuration_congr (parse : String → Option Int) (nowMs : Int)
    {a b : AlertData} (hs : a.startTime = b.startTime)
    (he : a.endTime = b.endTime) :
    calculateDuration parse nowMs a = calculateDuration parse nowMs b := by
  unfold calculateDuration endValue
  rw [hs, he]

theorem calculateIntensity_congr {a b : AlertData}
    (ht : a.threatTypes = b.threatTypes) (hd : a.duration = b.duration) :
    calculateIntensity a = calculateIntensity b := by
  unfold calculateIntensity
  rw [ht, hd]

theorem mergeAlertData_fields (parse : String → Option Int) (nowMs : Int)
    (nowIso : String) (e : AlertData) (u : RawAlert) :
    mergeAlertData parse nowMs nowIso e u =
      let A : AlertData :=
        { regionId := u.regionId.getD e.regionId
        , regionName := u.regionName.getD e.regionName
        , regionNameEn := u.regionNameEn.getD e.regionNameEn
        , alertLevel :=
            u.alertLevel.getD (jsOrStr (some e.alertLevel) AlertLevel.NONE)
        , threatTypes := u.threatTypes.getD e.threatTypes
        , startTime := jsUpdOpt u.startTime (jsOrOptStr e.startTime)
        , endTime := jsUpdOpt u.endTime (jsOrOptStr e.endTime)
        , duration := u.duration.getD e.duration
        , intensity := u.intensity.getD e.intensity
        , subRegions := u.subRegions.getD e.subRegions
        , isActive := u.isActive.getD e.isActive
        , lastUpdated :=
            u.lastUpdated.getD (jsOrStr (some e.lastUpdated) nowIso) }
      { A with
          duration := calculateDuration parse nowMs A,
          intensity := calculateIntensity
            { A with duration := calculateDuration parse nowMs A } } := by
  simp [mergeAlertData, applyUpdate, mkAlertData, toJSON, jsOrStr_some_self,
    jsOrInt_some_zero]

theorem mergeAlertData_regionId (parse : String → Option Int) (nowMs : Int)
    (nowIso : String) (e : AlertData) (u : RawAlert) :
    (mergeAlertData parse nowMs nowIso e u).regionId =
      u.regionId.getD e.regionId := by
  simp [mergeAlertData_fields]

theorem mergeAlertData_regionName (parse : String → Option Int) (nowMs : Int)
    (nowIso : String) (e : AlertData) (u : RawAlert) :
    (mergeAlertData parse nowMs nowIso e u).regionName =
      u.regionName.getD e.regionName := by
  simp [mergeAlertData_fields]

theorem mergeAlertData_regionNameEn (parse : String → Option Int) (nowMs : Int)
    (nowIso : String) (e : AlertData) (u : RawAlert) :
    (mergeAlertData parse nowMs nowIso e u).regionNameEn =
      u.regionNameEn.getD e.regionNameEn := by
  simp [mergeAlertData_fields]

theorem mergeAlertData_alertLevel (parse : String → Option Int) (nowMs : Int)
    (nowIso : String) (e : AlertData) (u : RawAlert) :
    (mergeAlertData parse nowMs nowIso e u).alertLevel =
      u.alertLevel.getD (jsOrStr (some e.alertLevel) AlertLevel.NONE) := by
  simp [mergeAlertData_fields]

theorem mergeAlertData_threatTypes (parse : String → Option Int) (nowMs : Int)
    (nowIso : String) (e : AlertData) (u : RawAlert) :
    (mergeAlertData parse nowMs nowIso e u).threatTypes =
      u.threatTypes.getD e.threatTypes := by
  simp [mergeAlertData_fields]

theorem mergeAlertData_startTime (parse : String → Option Int) (nowMs : Int)
    (nowIso : String) (e : AlertData) (u : RawAlert) :
    (mergeAlertData parse nowMs nowIso e u).startTime =
      jsUpdOpt u.startTime (jsOrOptStr e.startTime) := by
  simp [mergeAlertData_fields]

theorem mergeAlertData_endTime (parse : String → Option Int) (nowMs : Int)
    (nowIso : String) (e : AlertData) (u : RawAlert) :
    (mergeAlertData parse nowMs nowIso e u).endTime =
      jsUpdOpt u.endTime (jsOrOptStr e.endTime) := by
  simp [mergeAlertData_fields]

theorem mergeAlertData_subRegions (parse : String → Option Int) (nowMs : Int)
    (nowIso : String) (e : AlertData) (u : RawAlert) :
    (mergeAlertData parse nowMs nowIso e u).subRegions =
      u.subRegions.getD e.subRegions := by
  simp [mergeAlertData_fields]

theorem mergeAlertData_isActive (parse : String → Option Int) (nowMs : Int)
    (nowIso : String) (e : AlertData) (u : RawAlert) :
    (mergeAlertData parse nowMs nowIso e u).isActive =
      u.isActive.getD e.isActive := by
  simp [mergeAlertData_fields]

theorem mergeAlertData_lastUpdated (parse : String → Option Int) (nowMs : Int)
    (nowIso : String) (e : AlertData) (u : RawAlert) :
    (mergeAlertData parse nowMs nowIso e u).lastUpdated =
      u.lastUpdated.getD (jsOrStr (some e.lastUpdated) nowIso) := by
  simp [mergeAlertData_fields]

theorem mergeAlertData_duration (parse : String → Option Int) (nowMs : Int)
    (nowIso : String) (e : AlertData) (u : RawAlert) :
    (mergeAlertData parse nowMs nowIso e u).duration =
      calculateDuration parse nowMs (mergeAlertData parse nowMs nowIso e u) := by
  conv_lhs => rw [mergeAlertData_fields]
  conv_rhs => rw [mergeAlertData_fields]
  exact (calculateDuration_congr parse nowMs rfl rfl).symm

theorem mergeAlertData_intensity (parse : String → Option Int) (nowMs : Int)
    (nowIso : String) (e : AlertData) (u : RawAlert) :
    (mergeAlertData parse nowMs nowIso e u).intensity =
      calculateIntensity (mergeAlertData parse nowMs nowIso e u) := by
  conv_lhs => rw [mergeAlertData_fields]
  conv_rhs => rw [mergeAlertData_fields]
  exact (calculateIntensity_congr rfl rfl).symm

theorem optGetD_absorb {α : Type} (o : Option α) (x : α) :
    o.getD (o.getD x) = o.getD x := by
  cases o <;> rfl

theorem getD_jsOrStr_absorb (o : Option String) (x d : String) :
    o.getD (jsOrStr (some (o.getD (jsOrStr (some x) d))) d) =
      o.getD (jsOrStr (some x) d) := by
  cases o with
  | none => simp [jsOrStr_idem]
  | some v => rfl

theorem jsUpdOpt_absorb (u x : Option String) :
    jsUpdOpt u (jsOrOptStr (jsUpdOpt u (jsOrOptStr x))) =
      jsUpdOpt u (jsOrOptStr x) := by
  cases u with
  | some s => rfl
  | none => simp [jsUpdOpt, jsOrOptStr_idem]

/-- Claim C9: with the clock fixed, merging the same update twice is
idempotent: `merge(merge(r, u), u) = merge(r, u)`. -/
theorem merge_idempotent (parse : String → Option Int) (nowMs : Int)
    (nowIso : String) (e : AlertData) (u : RawAlert) :
    mergeAlertData parse nowMs nowIso (mergeAlertData parse nowMs nowIso e u) u
      = mergeAlertData parse nowMs nowIso e u := by
  have hst : (mergeAlertData parse nowMs nowIso
        (mergeAlertData parse nowMs nowIso e u) u).startTime =
      (mergeAlertData parse nowMs nowIso e u).startTime := by
    simp only [mergeAlertData_startTime, jsUpdOpt_absorb]
  have het : (mergeAlertData parse nowMs nowIso
        (mergeAlertData parse nowMs nowIso e u) u).endTime =
      (mergeAlertData parse nowMs nowIso e u).endTime := by
    simp only [mergeAlertData_endTime, jsUpdOpt_absorb]
  have hth : (mergeAlertData parse nowMs nowIso
        (mergeAlertData parse nowMs nowIso e u) u).threatTypes =
      (mergeAlertData parse nowMs nowIso e u).threatTypes := by
    simp only [mergeAlertData_threatTypes, optGetD_absorb]
  have hdur : (mergeAlertData parse nowMs nowIso
        (mergeAlertData parse nowMs nowIso e u) u).duration =
      (mergeAlertData parse nowMs nowIso e u).duration := by
    rw [mergeAlertData_duration parse nowMs nowIso
        (mergeAlertData parse nowMs nowIso e u) u,
      calculateDuration_congr parse nowMs hst het,
      ← mergeAlertData_duration]
  have hint : (mergeAlertData parse nowMs nowIso
        (mergeAlertData parse nowMs nowIso e u) u).intensity =
      (mergeAlertData parse nowMs nowIso e u).intensity := by
    rw [mergeAlertData_intensity parse nowMs nowIso
        (mergeAlertData parse nowMs nowIso e u) u,
      calculateIntensity_congr hth hdur,
      ← mergeAlertData_intensity]
  refine AlertData.ext ?_ ?_ ?_ ?_ hth hst het hdur hint ?_ ?_ ?_
  · simp only [mergeAlertData_regionId, optGetD_absorb]
  · simp only [mergeAlertData_regionName, optGetD_absorb]
  · simp only [mergeAlertData_regionNameEn, optGetD_absorb]
  · simp only [mergeAlertData_alertLevel, getD_jsOrStr_absorb]
  · simp only [mergeAlertData_subRegions, optGetD_absorb]
  · simp only [mergeAlertData_isActive, optGetD_absorb]
  · simp only [mergeAlertData_lastUpdated, getD_jsOrStr_absorb]

end UaAlerts
